import Mathlib

/-!
Verification model of the testflow-vista API explorer.

The embedded code is the request-building / validation / response-handling
core of `src/src/components/ApiTestPanel.tsx` together with the endpoint
catalog of `src/src/pages/Index.tsx`.  Pure functions of the source are
translated as Lean functions; the React component state is an explicit
record (`PanelState`) and `handleApiCall` becomes a state transformer
(`submit`) that also records whether and with what request a network call
was dispatched.  JavaScript platform primitives used by the source
(`String.prototype.trim`, `String.prototype.replace`, `JSON.parse`,
`JSON.stringify(v, null, 2)`) are modelled explicitly below.
-/

namespace TestflowVista

/-- Whitespace set of JavaScript `String.prototype.trim` (WhiteSpace and
LineTerminator code points; the exotic Unicode space separators beyond
NBSP / BOM / LS / PS are not enumerated here, no value in this program
contains them). -/
def isJsSpace (c : Char) : Bool :=
  c = ' ' || c = '\t' || c = '\n' || c = '\r' ||
  c = Char.ofNat 11 || c = Char.ofNat 12 ||
  c = Char.ofNat 0xA0 || c = Char.ofNat 0xFEFF ||
  c = Char.ofNat 0x2028 || c = Char.ofNat 0x2029

/-- Model of JavaScript `s.trim()`: drop `isJsSpace` characters from both
ends. -/
def jsTrim (s : String) : String :=
  String.mk ((((s.data.dropWhile isJsSpace).reverse).dropWhile isJsSpace).reverse)

/-- Truthiness test used by the source at `!formData[field.name]?.trim()`
and `!pathParams[param.name]?.trim()`: an absent entry is falsy, and a
present entry is falsy exactly when its trim is empty. -/
def blankOpt (o : Option String) : Bool :=
  match o with
  | none => true
  | some v => jsTrim v = ""

/-- Truthiness test used by the source at `pathParams[param.name]` inside
`buildApiUrl`: an absent entry and the empty string are falsy. -/
def truthyOpt (o : Option String) : Bool :=
  match o with
  | none => false
  | some v => v ≠ ""

/-- HTTP method union type of the `ApiEndpoint` interface,
`ApiTestPanel.tsx` line 39. -/
inductive Method where
  | GET
  | POST
  | PUT
  | DELETE
  | PATCH
deriving DecidableEq

/-- `Parameter` interface, `ApiTestPanel.tsx` lines 12-18.  The source
field `in?` is called `inLoc` here (`in` is reserved in Lean). -/
structure Parameter where
  name : String
  type : String
  required : Bool
  description : String
  inLoc : Option String := none
deriving DecidableEq

/-- `FormField` interface, `ApiTestPanel.tsx` lines 20-26. -/
structure FormField where
  name : String
  type : String
  required : Bool
  description : String
  defaultValue : Option String := none
deriving DecidableEq

/-- `FileUpload` interface, `ApiTestPanel.tsx` lines 28-34. -/
structure FileUpload where
  required : Bool
  multiple : Bool
  accept : String
  name : String
  description : String
deriving DecidableEq

/-- `ApiEndpoint` interface, `ApiTestPanel.tsx` lines 36-49.  The optional
list fields `parameters?` and `formFields?` are modelled as plain lists
with `[]` for absent (the source only ever iterates or filters them, on
which `undefined` and `[]` agree).  Display-only string fields
(`fullDescription`, `tag`, `codeExample`, response examples) are omitted:
no modelled operation reads them. -/
structure ApiEndpoint where
  id : String
  name : String
  method : Method
  path : String
  description : String
  parameters : List Parameter := []
  formFields : List FormField := []
  fileUpload : Option FileUpload := none
  requestBodyType : Option String := none
deriving DecidableEq

/-- Catalog entry `classify` of `realEndpoints`, `Index.tsx`. -/
def classifyEndpoint : ApiEndpoint :=
  { id := "classify"
    name := "Analyze and Classify Invoice Pages"
    method := .POST
    path := "/v1/classify"
    description := "This API endpoint accepts a PDF document that may comprise multiple types of documents within a single file. Utilizing Azure Custom Classification model, it automatically analyzes the document to identify and categorize distinct document types present across its pages."
    parameters := []
    requestBodyType := some "multipart/form-data"
    fileUpload := some
      { required := true
        multiple := false
        accept := ".pdf,.png,.jpg,.jpeg"
        name := "file"
        description := "A single invoice file (PNG, JPG, JPEG, or PDF) to classify pages." } }

/-- Catalog entry `extract-async` of `realEndpoints`, `Index.tsx`. -/
def extractAsyncEndpoint : ApiEndpoint :=
  { id := "extract-async"
    name := "Document Extraction (Async)"
    method := .POST
    path := "/v1/extract/async"
    description := "This API runs the DocX Agent asynchronously to extract structured data, such as tables, fields, and entities, from one or more uploaded document files."
    parameters := []
    requestBodyType := some "multipart/form-data"
    fileUpload := some
      { required := true
        multiple := true
        accept := ".pdf,.png,.jpg,.jpeg"
        name := "files"
        description := "List of files to be processed." }
    formFields :=
      [ { name := "query"
          type := "text"
          required := true
          description := "Extraction query string specifying what data to extract from the documents." }
      , { name := "tags"
          type := "text"
          required := false
          description := "Optional tags for request filtering (JSON array format)."
          defaultValue := some "[]" } ] }

/-- Catalog entry `extract` of `realEndpoints`, `Index.tsx`. -/
def extractEndpoint : ApiEndpoint :=
  { id := "extract"
    name := "Document Extraction (Sync)"
    method := .POST
    path := "/v1/extract"
    description := "This synchronous API runs the DocX Agent on one or more uploaded documents to immediately extract structured data or text based on user-defined extraction queries."
    parameters := []
    requestBodyType := some "multipart/form-data"
    fileUpload := some
      { required := true
        multiple := true
        accept := ".pdf,.png,.jpg,.jpeg"
        name := "files"
        description := "Files to process (array)." }
    formFields :=
      [ { name := "query"
          type := "text"
          required := true
          description := "Extraction query string (what to extract)." }
      , { name := "tags"
          type := "text"
          required := false
          description := "Optional tags (JSON array format)."
          defaultValue := some "[]" } ] }

/-- Catalog entry `trace` of `realEndpoints`, `Index.tsx`. -/
def traceEndpoint : ApiEndpoint :=
  { id := "trace"
    name := "Check Status by Trace ID"
    method := .GET
    path := "/v1/trace_id/\x7btrace_id\x7d"
    description := "This API retrieves the detailed processing status and associated metadata for a previously submitted document processing task, identified uniquely by its trace ID."
    parameters :=
      [ { name := "trace_id"
          type := "string"
          required := true
          description := "The unique trace ID corresponding to a specific document processing task"
          inLoc := some "path" } ] }

/-- The `realEndpoints` catalog of `Index.tsx`, in source order. -/
def realEndpoints : List ApiEndpoint :=
  [classifyEndpoint, extractAsyncEndpoint, extractEndpoint, traceEndpoint]

/-- Component state of `ApiTestPanel`, lines 64-71 of the source.  Files
are identified by their (opaque) names; the JS record objects `formData`
and `pathParams` are partial maps. -/
structure PanelState where
  apiKey : String
  selectedFiles : List String
  formData : String → Option String
  pathParams : String → Option String
  response : String
  responseStatus : Option Nat
  isLoading : Bool
  error : String

/-- Form-data record built by the initializer block of `ApiTestPanel.tsx`
lines 77-83: every declared form field is assigned
`field.defaultValue || ""`, later fields overwriting earlier ones of the
same name (JS object assignment). -/
def initialFormData (e : ApiEndpoint) : String → Option String :=
  e.formFields.foldl
    (fun acc f => fun n => if n = f.name then some (f.defaultValue.getD "") else acc n)
    (fun _ => none)

/-- Component state right after `ApiTestPanel` mounts with endpoint `e`:
all `useState` initial values (lines 64-71), with `formData` set by the
lazy initializer block at lines 77-83, which runs during the first
render. -/
def mountState (e : ApiEndpoint) : PanelState :=
  { apiKey := ""
    selectedFiles := []
    formData := initialFormData e
    pathParams := fun _ => none
    response := ""
    responseStatus := none
    isLoading := false
    error := "" }

/-- Effect on the panel's component state when `Index` switches the
selected endpoint (`Index.tsx` lines 570-588): `ApiTestPanel` is rendered
at the same position with no `key`, so React keeps the mounted instance
and all of its hook state.  The block at `ApiTestPanel.tsx` lines 77-83
is a `useState` call, whose lazy initializer runs only at mount and whose
second argument is ignored (`useState` takes none), so no state is
re-initialized: the state record is unchanged. -/
def onEndpointChange (s : PanelState) : PanelState := s

/-- `handleFileSelect`, `ApiTestPanel.tsx` lines 85-92:
`endpoint.fileUpload?.multiple` truthy appends the new files to the
previous selection, otherwise the selection is replaced by at most the
first supplied file (`files.slice(0, 1)`). -/
def handleFileSelect (e : ApiEndpoint) (prev files : List String) : List String :=
  if (e.fileUpload.map (·.multiple)).getD false then prev ++ files
  else files.take 1

/-- `removeFile`, `ApiTestPanel.tsx` lines 94-96: keep every file except
the one at `index`. -/
def removeFile (prev : List String) (index : Nat) : List String :=
  (prev.enum.filter (fun p => p.1 ≠ index)).map (·.2)

/-- Expansion of the ECMAScript GetSubstitution table for a string
replacement with no capture groups, applied by
`String.prototype.replace` to the replacement string: `$$` inserts `$`,
`$&` inserts the matched substring, `` $` `` inserts the part of the
original string before the match, `$'` inserts the part after it, and
any other `$`-sequence (including `$1`..`$99`, which have no capture to
refer to) is kept verbatim.  The backquote and quote characters are
written `Char.ofNat 96` and `Char.ofNat 39`. -/
def getSubstitution : List Char → List Char → List Char → List Char → List Char
  | [], _, _, _ => []
  | [c], _, _, _ => [c]
  | c :: d :: rest2, matched, before, after =>
    if c = '$' then
      if d = '$' then '$' :: getSubstitution rest2 matched before after
      else if d = '&' then matched ++ getSubstitution rest2 matched before after
      else if d = Char.ofNat 96 then before ++ getSubstitution rest2 matched before after
      else if d = Char.ofNat 39 then after ++ getSubstitution rest2 matched before after
      else '$' :: getSubstitution (d :: rest2) matched before after
    else c :: getSubstitution (d :: rest2) matched before after

/-- Worker for `replaceFirst`: `before` accumulates the part of the
original string already passed over, which the GetSubstitution
backquote pattern re-inserts. -/
def replaceFirstAux (before s pat rep : List Char) : List Char :=
  match s with
  | [] => []
  | c :: rest =>
    if pat.isPrefixOf s then
      getSubstitution rep pat before (s.drop pat.length) ++ s.drop pat.length
    else c :: replaceFirstAux (before ++ [c]) rest pat rep

/-- Replace the first occurrence of `pat` in `s` by the replacement
`rep`, the behaviour of JavaScript `s.replace(pat, rep)` with string
arguments, including the `$`-substitution (GetSubstitution) the
replacement string undergoes.  On an empty source the result is
empty. -/
def replaceFirst (s pat rep : List Char) : List Char :=
  replaceFirstAux [] s pat rep

/-- String wrapper for `replaceFirst`. -/
def jsReplaceFirst (s pat rep : String) : String :=
  String.mk (replaceFirst s.data pat.data rep.data)

/-- Fixed base host of `buildApiUrl`, `ApiTestPanel.tsx` line 107. -/
def baseUrl : String := "https://kong-uat-proxy.hachiai.com/quest"

/-- `buildApiUrl`, `ApiTestPanel.tsx` lines 106-117: start from the base
host plus `endpoint.path`, then for every parameter with `in === "path"`
and a truthy stored value, replace the first occurrence of
`\x7bname\x7d` by that value. -/
def buildApiUrl (e : ApiEndpoint) (pathParams : String → Option String) : String :=
  e.parameters.foldl
    (fun url param =>
      if param.inLoc = some "path" ∧ truthyOpt (pathParams param.name) then
        jsReplaceFirst url ("\x7b" ++ param.name ++ "\x7d")
          ((pathParams param.name).getD "")
      else url)
    (baseUrl ++ e.path)

/-- JSON values as produced by `JSON.parse`.  A number is kept as its
source lexeme: the source only re-serializes parsed values, and the
double-precision canonicalization JavaScript would apply to a number
(e.g. `1.0` printing as `1`) is a floating-point concern outside this
model; no claim exercises numeric bodies. -/
inductive Json where
  | null
  | bool (b : Bool)
  | num (lexeme : String)
  | str (s : String)
  | arr (elems : List Json)
  | obj (members : List (String × Json))

/-- Whitespace accepted by `JSON.parse` between tokens. -/
def isJsonWs (c : Char) : Bool :=
  c = ' ' || c = '\t' || c = '\n' || c = '\r'

/-- Drop leading JSON whitespace. -/
def skipJsonWs (cs : List Char) : List Char :=
  cs.dropWhile isJsonWs

/-- Numeric value of one hexadecimal digit. -/
def hexVal (c : Char) : Option Nat :=
  if '0' ≤ c ∧ c ≤ '9' then some (c.toNat - '0'.toNat)
  else if 'a' ≤ c ∧ c ≤ 'f' then some (c.toNat - 'a'.toNat + 10)
  else if 'A' ≤ c ∧ c ≤ 'F' then some (c.toNat - 'A'.toNat + 10)
  else none

/-- Parse the remainder of a JSON string literal (the opening quote
already consumed), returning the decoded string and the rest of the
input.  `fuel` bounds the recursion; one unit per consumed character
suffices. -/
def parseStringRest : Nat → List Char → Option (String × List Char)
  | 0, _ => none
  | _, [] => none
  | fuel + 1, c :: cs =>
    if c = '"' then some ("", cs)
    else if c = '\\' then
      match cs with
      | [] => none
      | e :: cs2 =>
        let dec : Option (Char × List Char) :=
          if e = '"' then some ('"', cs2)
          else if e = '\\' then some ('\\', cs2)
          else if e = '/' then some ('/', cs2)
          else if e = 'b' then some (Char.ofNat 8, cs2)
          else if e = 'f' then some (Char.ofNat 12, cs2)
          else if e = 'n' then some ('\n', cs2)
          else if e = 'r' then some ('\r', cs2)
          else if e = 't' then some ('\t', cs2)
          else if e = 'u' then
            match cs2 with
            | a :: b :: c3 :: d :: cs3 =>
              match hexVal a, hexVal b, hexVal c3, hexVal d with
              | some ha, some hb, some hc, some hd =>
                some (Char.ofNat (((ha * 16 + hb) * 16 + hc) * 16 + hd), cs3)
              | _, _, _, _ => none
            | _ => none
          else none
        match dec with
        | none => none
        | some (ch, rest) =>
          (parseStringRest fuel rest).map (fun p => (String.mk (ch :: p.1.data), p.2))
    else if c.toNat < 0x20 then none
    else (parseStringRest fuel cs).map (fun p => (String.mk (c :: p.1.data), p.2))

/-- Parse a JSON number lexeme at the head of the input:
`-? (0 | [1-9][0-9]*) (. [0-9]+)? ([eE][+-]?[0-9]+)?`. -/
def parseNumber (cs : List Char) : Option (String × List Char) :=
  let sign : List Char × List Char :=
    match cs with
    | '-' :: rest => (['-'], rest)
    | _ => ([], cs)
  let intPart : Option (List Char × List Char) :=
    match sign.2 with
    | '0' :: rest => some (['0'], rest)
    | c :: rest =>
      if '1' ≤ c ∧ c ≤ '9' then
        let ds := rest.takeWhile Char.isDigit
        some (c :: ds, rest.drop ds.length)
      else none
    | [] => none
  match intPart with
  | none => none
  | some (ip, r1) =>
    let frac : Option (List Char × List Char) :=
      match r1 with
      | '.' :: r2 =>
        let ds := r2.takeWhile Char.isDigit
        if ds = [] then none else some ('.' :: ds, r2.drop ds.length)
      | _ => some ([], r1)
    match frac with
    | none => none
    | some (fp, r2) =>
      let expo : Option (List Char × List Char) :=
        match r2 with
        | c :: r3 =>
          if c = 'e' ∨ c = 'E' then
            let signedRest : List Char × List Char :=
              match r3 with
              | s :: r4 => if s = '+' ∨ s = '-' then ([s], r4) else ([], r3)
              | [] => ([], r3)
            let ds := signedRest.2.takeWhile Char.isDigit
            if ds = [] then none
            else some (c :: (signedRest.1 ++ ds), signedRest.2.drop ds.length)
          else some ([], r2)
        | [] => some ([], r2)
      match expo with
      | none => none
      | some (ep, r3) => some (String.mk (sign.1 ++ ip ++ fp ++ ep), r3)

mutual

/-- Parse one JSON value, skipping leading whitespace; returns the value
and the unconsumed input.  Models `JSON.parse` recursive descent; `fuel`
bounds nesting and one unit per consumed character suffices. -/
def parseValue : Nat → List Char → Option (Json × List Char)
  | 0, _ => none
  | fuel + 1, cs =>
    match skipJsonWs cs with
    | [] => none
    | c :: rest =>
      if c = '{' then
        match skipJsonWs rest with
        | '}' :: r2 => some (.obj [], r2)
        | cs2 => (parseMembers fuel cs2).map (fun p => (Json.obj p.1, p.2))
      else if c = '[' then
        match skipJsonWs rest with
        | ']' :: r2 => some (.arr [], r2)
        | cs2 => (parseElems fuel cs2).map (fun p => (Json.arr p.1, p.2))
      else if c = '"' then
        (parseStringRest fuel rest).map (fun p => (Json.str p.1, p.2))
      else if c = 't' then
        match rest with
        | 'r' :: 'u' :: 'e' :: r2 => some (.bool true, r2)
        | _ => none
      else if c = 'f' then
        match rest with
        | 'a' :: 'l' :: 's' :: 'e' :: r2 => some (.bool false, r2)
        | _ => none
      else if c = 'n' then
        match rest with
        | 'u' :: 'l' :: 'l' :: r2 => some (.null, r2)
        | _ => none
      else
        (parseNumber (c :: rest)).map (fun p => (Json.num p.1, p.2))

/-- Parse the members of a JSON object, positioned at the first key
(whitespace already skipped, object known non-empty). -/
def parseMembers : Nat → List Char → Option (List (String × Json) × List Char)
  | 0, _ => none
  | fuel + 1, cs =>
    match cs with
    | '"' :: rest =>
      match parseStringRest fuel rest with
      | none => none
      | some (key, r1) =>
        match skipJsonWs r1 with
        | ':' :: r2 =>
          match parseValue fuel r2 with
          | none => none
          | some (v, r3) =>
            match skipJsonWs r3 with
            | ',' :: r4 =>
              (parseMembers fuel (skipJsonWs r4)).map
                (fun p => ((key, v) :: p.1, p.2))
            | '}' :: r4 => some ([(key, v)], r4)
            | _ => none
        | _ => none
    | _ => none

/-- Parse the elements of a JSON array, positioned at the first element
(array known non-empty). -/
def parseElems : Nat → List Char → Option (List Json × List Char)
  | 0, _ => none
  | fuel + 1, cs =>
    match parseValue fuel cs with
    | none => none
    | some (v, r1) =>
      match skipJsonWs r1 with
      | ',' :: r2 => (parseElems fuel r2).map (fun p => (v :: p.1, p.2))
      | ']' :: r2 => some ([v], r2)
      | _ => none

end

/-- Model of `JSON.parse(s)`: parse one value with fuel `s.length + 1`
(ample, since every recursive descent step first consumes at least one
character) and require only trailing whitespace after it. -/
def jsonParse (s : String) : Option Json :=
  match parseValue (s.length + 1) s.data with
  | some (v, rest) => if skipJsonWs rest = [] then some v else none
  | none => none

/-- Lower-case hexadecimal digit. -/
def hexDigit (n : Nat) : Char :=
  if n < 10 then Char.ofNat ('0'.toNat + n) else Char.ofNat ('a'.toNat + n - 10)

/-- Escape one character as `JSON.stringify` does inside string
literals. -/
def escapeJsonChar (c : Char) : String :=
  if c = '"' then "\\\""
  else if c = '\\' then "\\\\"
  else if c = '\n' then "\\n"
  else if c = '\r' then "\\r"
  else if c = '\t' then "\\t"
  else if c = Char.ofNat 8 then "\\b"
  else if c = Char.ofNat 12 then "\\f"
  else if c.toNat < 0x20 then
    String.mk ['\\', 'u', '0', '0', hexDigit (c.toNat / 16), hexDigit (c.toNat % 16)]
  else String.mk [c]

/-- Quote a string as a JSON string literal. -/
def quoteJson (s : String) : String :=
  "\"" ++ String.join (s.data.map escapeJsonChar) ++ "\""

/-- Indentation of `n` spaces. -/
def indentStr (n : Nat) : String :=
  String.mk (List.replicate n ' ')

mutual

/-- Model of `JSON.stringify(v, null, 2)` at ambient indentation `ind`:
empty containers print inline, non-empty ones one entry per line indented
two further spaces, with `": "` between key and value. -/
def stringifyV : Nat → Json → String
  | _, .null => "null"
  | _, .bool b => if b then "true" else "false"
  | _, .num lx => lx
  | _, .str s => quoteJson s
  | _, .arr [] => "[]"
  | ind, .arr (x :: xs) =>
    "[\n" ++ String.intercalate ",\n" (stringifyItems (ind + 2) (x :: xs)) ++
      "\n" ++ indentStr ind ++ "]"
  | _, .obj [] => "\x7b\x7d"
  | ind, .obj (kv :: kvs) =>
    "\x7b\n" ++ String.intercalate ",\n" (stringifyMembers (ind + 2) (kv :: kvs)) ++
      "\n" ++ indentStr ind ++ "\x7d"

/-- Pretty-printed array items, one string per element. -/
def stringifyItems : Nat → List Json → List String
  | _, [] => []
  | ind, x :: xs => (indentStr ind ++ stringifyV ind x) :: stringifyItems ind xs

/-- Pretty-printed object members, one string per member. -/
def stringifyMembers : Nat → List (String × Json) → List String
  | _, [] => []
  | ind, (k, v) :: kvs =>
    (indentStr ind ++ quoteJson k ++ ": " ++ stringifyV ind v) ::
      stringifyMembers ind kvs

end

/-- Response-body normalization of `ApiTestPanel.tsx` lines 205-210: try
`JSON.parse`; on success store `JSON.stringify(parsed, null, 2)`, on
failure store the raw text unchanged. -/
def normalizeBody (t : String) : String :=
  match jsonParse t with
  | some v => stringifyV 0 v
  | none => t

/-- Missing-field list built by `handleApiCall`, `ApiTestPanel.tsx` lines
129-149: the literal entry `"file(s)"` when a required file upload has no
selected file, then every required form field whose stored value is
absent or blank after trim, then every required path parameter whose
stored value is absent or blank after trim, each in declaration order. -/
def missingFields (e : ApiEndpoint) (s : PanelState) : List String :=
  (match e.fileUpload with
   | some fu => if fu.required ∧ s.selectedFiles.length = 0 then ["file(s)"] else []
   | none => []) ++
  (e.formFields.filterMap
    (fun f => if f.required ∧ blankOpt (s.formData f.name) then some f.name else none)) ++
  (e.parameters.filterMap
    (fun p =>
      if p.required ∧ p.inLoc = some "path" ∧ blankOpt (s.pathParams p.name) then
        some p.name
      else none))

/-- One entry of the multipart `FormData` body: a file part appended under
the upload field's name, or an ordinary field part. -/
inductive BodyPart where
  | filePart (field : String) (file : String)
  | fieldPart (name : String) (value : String)
deriving DecidableEq

/-- Request body assembled by `handleApiCall`, `ApiTestPanel.tsx` lines
171-192: only for a non-GET endpoint with request body type
`multipart/form-data` is a `FormData` built, holding every selected file
under `fileUpload.name` in selection order, then, for each declared form
field in order, an entry with its stored value when that value is defined
(`value !== undefined`) and no entry otherwise.  In every other case the
body stays `undefined`. -/
def buildBody (e : ApiEndpoint) (selectedFiles : List String)
    (formData : String → Option String) : Option (List BodyPart) :=
  if e.method ≠ .GET ∧ e.requestBodyType = some "multipart/form-data" then
    some
      ((match e.fileUpload with
        | some fu => selectedFiles.map (fun f => BodyPart.filePart fu.name f)
        | none => []) ++
       e.formFields.filterMap
         (fun f => (formData f.name).map (fun v => BodyPart.fieldPart f.name v)))
  else none

/-- The concrete HTTP request handed to `fetch`, `ApiTestPanel.tsx` lines
166-200: method, resolved URL, the credential in the `apiKey` header, and
the optional multipart body. -/
structure RequestData where
  method : Method
  url : String
  apiKeyHeader : String
  body : Option (List BodyPart)
deriving DecidableEq

/-- Outcome of the `fetch` call as seen by `handleApiCall`: either a
received response (status, status text, body text) or a thrown transport
exception, whose message is `some m` when the thrown value is an `Error`
with message `m` and `none` otherwise. -/
inductive FetchResult where
  | response (status : Nat) (statusText : String) (bodyText : String)
  | exn (message : Option String)
deriving DecidableEq

/-- Which control path `handleApiCall` took: the empty-API-key early
return (lines 120-127), the missing-required-fields early return (lines
151-158), or a completed execution. -/
inductive SubmitResult where
  | missingApiKey
  | missingRequired (fields : List String)
  | completed
deriving DecidableEq

/-- Observable trace of one `handleApiCall` run: the control path taken,
whether a network call was dispatched and with what request, the
component state at the moment of dispatch (after lines 160-163 set
`isLoading` and clear the previous outcome), and the final component
state. -/
structure SubmitTrace where
  result : SubmitResult
  dispatched : Bool
  request : Option RequestData
  preDispatch : Option PanelState
  final : PanelState

/-- `handleApiCall`, `ApiTestPanel.tsx` lines 119-238, as a state
transformer parameterized by the network outcome `net` the `fetch` call
would produce.  Early returns touch no state.  A dispatched call first
sets `isLoading := true` and clears `error`, `response`,
`responseStatus` (lines 160-163); after the response the status is
recorded, the body normalized, a non-2xx status (`!apiResponse.ok`) sets
the `HTTP <status>: <statusText>` error; a thrown exception stores the
message (or the fixed fallback text) in `error` and `"Error: " ++`
message in `response`; the `finally` block resets `isLoading` on every
path. -/
def submit (e : ApiEndpoint) (s : PanelState) (net : FetchResult) : SubmitTrace :=
  if jsTrim s.apiKey = "" then
    { result := .missingApiKey, dispatched := false, request := none
      preDispatch := none, final := s }
  else
    let missing := missingFields e s
    if 0 < missing.length then
      { result := .missingRequired missing, dispatched := false, request := none
        preDispatch := none, final := s }
    else
      let s1 : PanelState :=
        { s with isLoading := true, error := "", response := "", responseStatus := none }
      let req : RequestData :=
        { method := e.method
          url := buildApiUrl e s.pathParams
          apiKeyHeader := s.apiKey
          body := buildBody e s.selectedFiles s.formData }
      let final : PanelState :=
        match net with
        | .response status statusText bodyText =>
          let s2 : PanelState :=
            { s1 with responseStatus := some status, response := normalizeBody bodyText }
          let s3 : PanelState :=
            if 200 ≤ status ∧ status < 300 then s2
            else { s2 with error := "HTTP " ++ toString status ++ ": " ++ statusText }
          { s3 with isLoading := false }
        | .exn message =>
          let m := message.getD "An unexpected error occurred"
          { s1 with error := m, response := "Error: " ++ m, isLoading := false }
      { result := .completed, dispatched := true, request := some req
        preDispatch := some s1, final := final }

/-- Concrete form-data record of a user who typed `q` into the `query`
field and touched nothing else. -/
def okFormData : String → Option String :=
  fun n => if n = "query" then some "q" else none

/-- Concrete panel state reaching the extraction endpoints' happy path:
credential typed, one file selected, the required `query` filled. -/
def okExtractState : PanelState :=
  { mountState classifyEndpoint with
    apiKey := "k"
    selectedFiles := ["doc.pdf"]
    formData := okFormData }

/-- Concrete path-parameter record supplying `trace_id = abc123`. -/
def okTraceParams : String → Option String :=
  fun n => if n = "trace_id" then some "abc123" else none

/-- Concrete path-parameter record supplying the JS-special replacement
pattern `$&` as the (non-empty) `trace_id` value. -/
def dollarTraceParams : String → Option String :=
  fun n => if n = "trace_id" then some "$&" else none

/-- Concrete panel state reaching the trace endpoint's happy path. -/
def okTraceState : PanelState :=
  { mountState classifyEndpoint with apiKey := "k", pathParams := okTraceParams }

/-- Concrete panel state with a credential but no file and no form input:
every required input of the extraction endpoints is missing. -/
def bareKeyState : PanelState :=
  { mountState classifyEndpoint with apiKey := "k" }

/-- Concrete panel state whose API key is whitespace-only. -/
def blankKeyState : PanelState :=
  { mountState classifyEndpoint with apiKey := "   " }

/-- Concrete panel state of a session on the `classify` endpoint that has
a file selected and a recorded outcome, just before the user switches the
selection to another endpoint. -/
def stateBeforeSwitch : PanelState :=
  { mountState classifyEndpoint with
    selectedFiles := ["a.pdf"]
    response := "done"
    error := "HTTP 500: Internal Server Error" }

theorem isPrefixOf_cons_head {a b : Char} {as bs : List Char}
    (h : (a :: as).isPrefixOf (b :: bs) = true) : a = b := by
  simp only [List.isPrefixOf, Bool.and_eq_true, beq_iff_eq] at h
  exact h.1

theorem getSubstitution_no_dollar (rep matched before after : List Char)
    (h : Char.ofNat 36 ∉ rep) : getSubstitution rep matched before after = rep := by
  induction rep with
  | nil => rfl
  | cons c rest ih =>
    have hc : ¬ c = '$' := by
      intro hx
      exact h (by rw [hx]; exact List.mem_cons_self _ _)
    have hrest : Char.ofNat 36 ∉ rest := fun hx => h (List.mem_cons_of_mem c hx)
    cases rest with
    | nil => rfl
    | cons d rest2 =>
      rw [getSubstitution, if_neg hc, ih hrest]

theorem replaceFirstAux_at_end (pat rep : List Char) (h0 : Char) (hrest : List Char)
    (hh : pat = h0 :: hrest) :
    ∀ (p before : List Char), h0 ∉ p →
      replaceFirstAux before (p ++ pat) pat rep
        = p ++ getSubstitution rep pat (before ++ p) [] := by
  intro p
  induction p with
  | nil =>
    intro before _
    subst hh
    simp only [List.nil_append, List.append_nil]
    rw [replaceFirstAux]
    have hp : (h0 :: hrest).isPrefixOf (h0 :: hrest) = true := by
      simp [List.isPrefixOf_iff_prefix]
    rw [if_pos hp, List.drop_length, List.append_nil]
  | cons c p' ih =>
    intro before hmem
    have hne : ¬ pat.isPrefixOf (c :: (p' ++ pat)) = true := by
      intro hpre
      subst hh
      exact hmem (by simp [isPrefixOf_cons_head hpre])
    rw [List.cons_append, replaceFirstAux]
    simp only [List.cons_append] at hne
    rw [if_neg hne]
    have hmem' : h0 ∉ p' := fun hx => hmem (List.mem_cons_of_mem c hx)
    rw [ih (before ++ [c]) hmem', List.cons_append]
    simp [List.append_assoc]

theorem jsReplaceFirst_concat (pre pat v : String) (h0 : Char) (hrest : List Char)
    (hh : pat.data = h0 :: hrest) (hmem : h0 ∉ pre.data) :
    jsReplaceFirst (pre ++ pat) pat v
      = pre ++ String.mk (getSubstitution v.data pat.data pre.data []) := by
  unfold jsReplaceFirst replaceFirst
  rw [String.data_append,
    replaceFirstAux_at_end pat.data v.data h0 hrest hh pre.data [] hmem,
    List.nil_append]
  cases pre
  rfl

theorem jsReplaceFirst_concat_no_dollar (pre pat v : String) (h0 : Char)
    (hrest : List Char) (hh : pat.data = h0 :: hrest) (hmem : h0 ∉ pre.data)
    (hd : Char.ofNat 36 ∉ v.data) :
    jsReplaceFirst (pre ++ pat) pat v = pre ++ v := by
  rw [jsReplaceFirst_concat pre pat v h0 hrest hh hmem,
    getSubstitution_no_dollar v.data pat.data pre.data [] hd]

/-- C2: the claim states that switching the selected endpoint resets
`formFieldValues` to the new endpoint's defaults, empties
`selectedFiles`, and clears the last response and error.  On the code
the switch preserves the panel state verbatim: `Index.tsx` renders
`ApiTestPanel` without a `key`, so the instance stays mounted, and the
initializer at `ApiTestPanel.tsx` lines 77-83 is a `useState` call whose
lazy initializer runs only at mount (its `[endpoint]` argument is
ignored - `useState` takes no second argument), contradicting the code's
own comment `Initialize form data with default values`.  Concretely,
after a session on `classify` with a selected file and a recorded
outcome switches to `extract-async`, nothing is reset: the stale file,
response and error survive, and `formFieldValues "tags"` is not the new
endpoint's default `"[]"`. -/
theorem endpointSwitchPreservesState :
    onEndpointChange stateBeforeSwitch = stateBeforeSwitch
    ∧ (onEndpointChange stateBeforeSwitch).selectedFiles = ["a.pdf"]
    ∧ (onEndpointChange stateBeforeSwitch).formData "tags" = none
    ∧ (onEndpointChange stateBeforeSwitch).response = "done"
    ∧ (onEndpointChange stateBeforeSwitch).error = "HTTP 500: Internal Server Error"
    ∧ ¬ ((onEndpointChange stateBeforeSwitch).formData "tags" =
          some ((extractAsyncEndpoint.formFields.map
            (fun f => f.defaultValue.getD "")).getD 1 "")
        ∧ (onEndpointChange stateBeforeSwitch).selectedFiles = []
        ∧ (onEndpointChange stateBeforeSwitch).response = ""
        ∧ (onEndpointChange stateBeforeSwitch).error = "") := by
  refine ⟨rfl, rfl, rfl, rfl, rfl, ?_⟩
  intro h
  exact absurd h.1 (by decide)

/-- C8: on an endpoint whose `fileUpload` does not allow multiple files,
selecting `[A, B]` replaces any previous selection with `[A]` (at most
the first supplied file); on an endpoint that allows multiple files,
selecting `[A]` and then `[B]` yields `[A, B]` (each selection appends),
exactly as `handleFileSelect` (lines 85-92) behaves. -/
theorem fileSelectionSemantics (e : ApiEndpoint) (fu : FileUpload)
    (hfu : e.fileUpload = some fu) :
    (fu.multiple = false →
      ∀ (prev : List String) (A B : String), handleFileSelect e prev [A, B] = [A])
    ∧ (fu.multiple = true →
      ∀ A B : String, handleFileSelect e (handleFileSelect e [] [A]) [B] = [A, B]) := by
  constructor
  · intro hm prev A B
    simp [handleFileSelect, hfu, hm]
  · intro hm A B
    simp [handleFileSelect, hfu, hm]

/-- Witness for C8 at the catalog: `classify` is single-file, so
`[A, B]` over a previous selection leaves `[A]`; `extract-async` is
multi-file, so `[A]` then `[B]` accumulate to `[A, B]`. -/
theorem fileSelectionSemanticsWitness :
    handleFileSelect classifyEndpoint ["x"] ["A", "B"] = ["A"]
    ∧ handleFileSelect extractAsyncEndpoint
        (handleFileSelect extractAsyncEndpoint [] ["A"]) ["B"] = ["A", "B"] :=
  ⟨(fileSelectionSemantics classifyEndpoint _ rfl).1 rfl ["x"] "A" "B",
   (fileSelectionSemantics extractAsyncEndpoint _ rfl).2 rfl "A" "B"⟩

/-- C9: a form state whose API key is empty or whitespace-only after
trimming makes `handleApiCall` return at lines 120-127, before the
required-field validation: the outcome is the empty-key error (never a
missing-required-fields error, whatever inputs are missing), no request
is built or dispatched, and the state is untouched. -/
theorem emptyApiKeyShortCircuit (e : ApiEndpoint) (s : PanelState) (net : FetchResult)
    (hkey : jsTrim s.apiKey = "") :
    (submit e s net).result = SubmitResult.missingApiKey
    ∧ (submit e s net).dispatched = false
    ∧ (submit e s net).request = none
    ∧ (submit e s net).final = s
    ∧ ∀ L, (submit e s net).result ≠ SubmitResult.missingRequired L := by
  refine ⟨?_, ?_, ?_, ?_, ?_⟩ <;> simp [submit, hkey]

/-- Witness for C9: a whitespace-only key on `extract`, with every
required field also missing, still produces the empty-key outcome and no
dispatch. -/
theorem emptyApiKeyShortCircuitWitness :
    missingFields extractEndpoint blankKeyState ≠ []
    ∧ (submit extractEndpoint blankKeyState (.exn none)).result =
        SubmitResult.missingApiKey
    ∧ (submit extractEndpoint blankKeyState (.exn none)).dispatched = false
    ∧ (submit extractEndpoint blankKeyState (.exn none)).final = blankKeyState := by
  have h := emptyApiKeyShortCircuit extractEndpoint blankKeyState (.exn none) (by decide)
  exact ⟨by decide, h.1, h.2.1, h.2.2.2.1⟩

/-- C10: when `handleApiCall` exits early (empty API key, lines 120-127,
or failed validation, lines 151-158) the stored response body, HTTP
status, error message and loading flag are all left unchanged; only
after validation passes are they cleared, at lines 160-163, immediately
before the dispatch. -/
theorem earlyExitFrame (e : ApiEndpoint) (s : PanelState) (net : FetchResult) :
    (jsTrim s.apiKey = "" →
      (submit e s net).final.response = s.response
      ∧ (submit e s net).final.responseStatus = s.responseStatus
      ∧ (submit e s net).final.error = s.error
      ∧ (submit e s net).final.isLoading = s.isLoading
      ∧ (submit e s net).preDispatch = none)
    ∧ (jsTrim s.apiKey ≠ "" → missingFields e s ≠ [] →
      (submit e s net).final.response = s.response
      ∧ (submit e s net).final.responseStatus = s.responseStatus
      ∧ (submit e s net).final.error = s.error
      ∧ (submit e s net).final.isLoading = s.isLoading
      ∧ (submit e s net).preDispatch = none)
    ∧ (jsTrim s.apiKey ≠ "" → missingFields e s = [] →
      (submit e s net).preDispatch =
        some { s with isLoading := true, error := "", response := "",
                      responseStatus := none }) := by
  refine ⟨fun h => ?_, fun h1 h2 => ?_, fun h1 h2 => ?_⟩
  · simp [submit, h]
  · have hlen : 0 < (missingFields e s).length := List.length_pos.mpr h2
    simp [submit, h1, hlen]
  · simp [submit, h1, h2]

/-- Witness for C10: on `extract`, a state missing its required inputs
keeps its previous outcome fields, and a valid state's pre-dispatch
snapshot is the cleared, loading state. -/
theorem earlyExitFrameWitness :
    (submit extractEndpoint bareKeyState (.exn none)).final.response =
        bareKeyState.response
    ∧ (submit extractEndpoint bareKeyState (.exn none)).final.isLoading =
        bareKeyState.isLoading
    ∧ (submit extractEndpoint bareKeyState (.exn none)).preDispatch = none
    ∧ (submit extractEndpoint okExtractState (.exn none)).preDispatch =
        some { okExtractState with isLoading := true, error := "", response := "",
                                   responseStatus := none } := by
  have h1 := (earlyExitFrame extractEndpoint bareKeyState (.exn none)).2.1
    (by decide) (by decide)
  have h2 := (earlyExitFrame extractEndpoint okExtractState (.exn none)).2.2
    (by decide) (by decide)
  exact ⟨h1.1, h1.2.2.2.1, h1.2.2.2.2, h2⟩

/-- C1: with a non-empty (post-trim) API key, if any required input is
missing - a required file upload with zero selected files, a required
form field blank after trimming, or a required path parameter blank
after trimming - then `handleApiCall` produces the validation error
enumerating the missing entries in source order (the file marker, then
the missing form-field names in declaration order, then the missing path
parameter names) and dispatches no network request (lines 129-158). -/
theorem validationErrorEnumeration (e : ApiEndpoint) (s : PanelState) (net : FetchResult)
    (hkey : jsTrim s.apiKey ≠ "")
    (hmiss :
      (∃ fu, e.fileUpload = some fu ∧ fu.required = true ∧ s.selectedFiles = [])
      ∨ (∃ f, f ∈ e.formFields ∧ f.required = true ∧ blankOpt (s.formData f.name) = true)
      ∨ (∃ p, p ∈ e.parameters ∧ p.required = true ∧ p.inLoc = some "path"
          ∧ blankOpt (s.pathParams p.name) = true)) :
    (submit e s net).result = SubmitResult.missingRequired
      ((match e.fileUpload with
        | some fu => if fu.required ∧ s.selectedFiles.length = 0 then ["file(s)"] else []
        | none => []) ++
       e.formFields.filterMap
         (fun f => if f.required ∧ blankOpt (s.formData f.name) then some f.name else none) ++
       e.parameters.filterMap
         (fun p =>
           if p.required ∧ p.inLoc = some "path" ∧ blankOpt (s.pathParams p.name) then
             some p.name
           else none))
    ∧ (submit e s net).dispatched = false
    ∧ (submit e s net).request = none := by
  have hne : missingFields e s ≠ [] := by
    rcases hmiss with ⟨fu, hfu, hreq, hemp⟩ | ⟨f, hf, hreq, hblank⟩ |
        ⟨p, hp, hreq, hin, hblank⟩
    · simp [missingFields, hfu, hreq, hemp]
    · intro hmf
      unfold missingFields at hmf
      rcases List.append_eq_nil.mp hmf with ⟨h12, -⟩
      rcases List.append_eq_nil.mp h12 with ⟨-, hB⟩
      have hmem : f.name ∈ e.formFields.filterMap
          (fun f => if f.required ∧ blankOpt (s.formData f.name) then some f.name
                    else none) :=
        List.mem_filterMap.mpr ⟨f, hf, by simp [hreq, hblank]⟩
      rw [hB] at hmem
      exact absurd hmem (List.not_mem_nil _)
    · intro hmf
      unfold missingFields at hmf
      rcases List.append_eq_nil.mp hmf with ⟨-, hC⟩
      have hmem : p.name ∈ e.parameters.filterMap
          (fun p =>
            if p.required ∧ p.inLoc = some "path" ∧ blankOpt (s.pathParams p.name) then
              some p.name
            else none) :=
        List.mem_filterMap.mpr ⟨p, hp, by simp [hreq, hin, hblank]⟩
      rw [hC] at hmem
      exact absurd hmem (List.not_mem_nil _)
  have hlen : 0 < (missingFields e s).length := List.length_pos.mpr hne
  have hsub : submit e s net =
      { result := SubmitResult.missingRequired (missingFields e s), dispatched := false,
        request := none, preDispatch := none, final := s } := by
    simp only [submit]
    rw [if_neg hkey, if_pos hlen]
  rw [hsub]
  exact ⟨rfl, rfl, rfl⟩

/-- Witness for C1: on `extract` with a credential but no file and no
form input, the validation error lists the file marker and `query` (the
optional `tags` is absent), and nothing is dispatched. -/
theorem validationErrorEnumerationWitness :
    (submit extractEndpoint bareKeyState (.exn none)).result =
        SubmitResult.missingRequired ["file(s)", "query"]
    ∧ (submit extractEndpoint bareKeyState (.exn none)).dispatched = false
    ∧ (submit extractEndpoint bareKeyState (.exn none)).request = none := by
  have h := validationErrorEnumeration extractEndpoint bareKeyState (.exn none)
    (by decide) (Or.inl ⟨_, rfl, rfl, rfl⟩)
  refine ⟨?_, h.2.1, h.2.2⟩
  rw [h.1]
  decide

/-- C3: on every execution of `handleApiCall` that passes validation,
the loading flag is set (and the prior outcome cleared) before the
network call is dispatched - the recorded pre-dispatch state has
`isLoading = true` - and the `finally` block leaves `isLoading = false`
in the final state on every exit path: 2xx response, non-2xx response,
and transport exception (`net` ranges over all of them). -/
theorem pendingLifecycle (e : ApiEndpoint) (s : PanelState) (net : FetchResult)
    (hkey : jsTrim s.apiKey ≠ "") (hvalid : missingFields e s = []) :
    (submit e s net).dispatched = true
    ∧ (submit e s net).preDispatch =
        some { s with isLoading := true, error := "", response := "",
                      responseStatus := none }
    ∧ (submit e s net).final.isLoading = false := by
  cases net <;> refine ⟨?_, ?_, ?_⟩ <;> simp [submit, hkey, hvalid]

/-- Witness for C3 on `extract` at all three exit paths: a 200 response,
a 404 response and a thrown transport error all end with the loading
flag cleared, after a pre-dispatch state that had it set. -/
theorem pendingLifecycleWitness :
    (submit extractEndpoint okExtractState (.response 200 "OK" "x")).final.isLoading = false
    ∧ (submit extractEndpoint okExtractState
        (.response 404 "Not Found" "x")).final.isLoading = false
    ∧ (submit extractEndpoint okExtractState (.exn (some "boom"))).final.isLoading = false
    ∧ (submit extractEndpoint okExtractState (.exn (some "boom"))).preDispatch =
        some { okExtractState with isLoading := true, error := "", response := "",
                                   responseStatus := none } := by
  have h1 := pendingLifecycle extractEndpoint okExtractState (.response 200 "OK" "x")
    (by decide) (by decide)
  have h2 := pendingLifecycle extractEndpoint okExtractState (.response 404 "Not Found" "x")
    (by decide) (by decide)
  have h3 := pendingLifecycle extractEndpoint okExtractState (.exn (some "boom"))
    (by decide) (by decide)
  exact ⟨h1.2.2, h2.2.2, h3.2.2, h3.2.1⟩

/-- C4 (amended): an HTTP status in `[200, 300)` is classified as
success (no error message); any other status sets the error message to
`HTTP <status>: <statusText>` while the body text still holds the
normalized response body; and a transport failure that never reaches a
server sets the error message to the transport error message while the
body text is set to `"Error: "` followed by that message - it is NOT
left empty (lines 201-234 of `handleApiCall`). -/
theorem statusClassification (e : ApiEndpoint) (s : PanelState)
    (status : Nat) (statusText bodyText msg : String)
    (hkey : jsTrim s.apiKey ≠ "") (hvalid : missingFields e s = []) :
    (200 ≤ status ∧ status < 300 →
      (submit e s (.response status statusText bodyText)).final.error = ""
      ∧ (submit e s (.response status statusText bodyText)).final.responseStatus =
          some status
      ∧ (submit e s (.response status statusText bodyText)).final.response =
          normalizeBody bodyText)
    ∧ (¬ (200 ≤ status ∧ status < 300) →
      (submit e s (.response status statusText bodyText)).final.error =
          "HTTP " ++ toString status ++ ": " ++ statusText
      ∧ (submit e s (.response status statusText bodyText)).final.responseStatus =
          some status
      ∧ (submit e s (.response status statusText bodyText)).final.response =
          normalizeBody bodyText)
    ∧ ((submit e s (.exn (some msg))).final.error = msg
      ∧ (submit e s (.exn (some msg))).final.response = "Error: " ++ msg
      ∧ (submit e s (.exn (some msg))).final.responseStatus = none) := by
  refine ⟨fun h => ?_, fun h => ?_, ?_⟩
  · refine ⟨?_, ?_, ?_⟩ <;> simp [submit, hkey, hvalid, h]
  · refine ⟨?_, ?_, ?_⟩ <;> simp [submit, hkey, hvalid, h]
  · refine ⟨?_, ?_, ?_⟩ <;> simp [submit, hkey, hvalid]

/-- Counterexample for C4 as stated: a transport failure with message
`Failed to fetch` leaves the body text equal to
`Error: Failed to fetch`, not empty. -/
theorem transportFailureBodyNotEmpty :
    (submit extractEndpoint okExtractState (.exn (some "Failed to fetch"))).final.error =
        "Failed to fetch"
    ∧ (submit extractEndpoint okExtractState
        (.exn (some "Failed to fetch"))).final.response = "Error: Failed to fetch"
    ∧ (submit extractEndpoint okExtractState
        (.exn (some "Failed to fetch"))).final.response ≠ "" := by
  refine ⟨?_, ?_, ?_⟩ <;> decide

/-- Witness for C4 (amended): a 404 response with body
`\x7b"error":"missing"\x7d` yields the error message
`HTTP 404: Not Found` (containing `404`) while the body text is the
pretty-printed body; a transport error message is stored as-is in the
error field. -/
theorem statusClassificationWitness :
    (submit extractEndpoint okExtractState
      (.response 404 "Not Found" "\x7b\"error\":\"missing\"\x7d")).final.error =
        "HTTP 404: Not Found"
    ∧ (submit extractEndpoint okExtractState
        (.response 404 "Not Found" "\x7b\"error\":\"missing\"\x7d")).final.response =
          "\x7b\n  \"error\": \"missing\"\n\x7d"
    ∧ (submit extractEndpoint okExtractState (.exn (some "down"))).final.error = "down" := by
  have h := statusClassification extractEndpoint okExtractState 404 "Not Found"
    "\x7b\"error\":\"missing\"\x7d" "down" (by decide) (by decide)
  have h2 := h.2.1 (by omega)
  refine ⟨?_, ?_, h.2.2.1⟩
  · rw [h2.1]; decide
  · rw [h2.2.2]; decide

/-- C5: a response body that parses as JSON is stored as the
pretty-printed (2-space indented) re-serialization of the parsed value,
and a body that does not parse is stored verbatim; in particular the
literal text `\x7b"status":"ok"\x7d` becomes its indented form and the
literal text `not json` is unchanged (lines 205-210). -/
theorem responseBodyNormalization :
    (∀ t v, jsonParse t = some v → normalizeBody t = stringifyV 0 v)
    ∧ (∀ t, jsonParse t = none → normalizeBody t = t)
    ∧ jsonParse "not json" = none
    ∧ normalizeBody "\x7b\"status\":\"ok\"\x7d" = "\x7b\n  \"status\": \"ok\"\n\x7d"
    ∧ normalizeBody "not json" = "not json" := by
  refine ⟨fun t v h => ?_, fun t h => ?_, ?_, ?_, ?_⟩
  · simp [normalizeBody, h]
  · simp [normalizeBody, h]
  · rfl
  · decide
  · decide

/-- Witness for C5: the two quantified conjuncts applied at concrete
bodies, one parseable and one not. -/
theorem responseBodyNormalizationWitness :
    normalizeBody "[0]" = stringifyV 0 (Json.arr [Json.num "0"])
    ∧ normalizeBody "plain text" = "plain text" :=
  ⟨responseBodyNormalization.1 "[0]" (Json.arr [Json.num "0"]) rfl,
   responseBodyNormalization.2.1 "plain text" rfl⟩

/-- C7 (amended): for a non-GET endpoint with request body type
`multipart/form-data` and a declared file upload, the assembled body is
one entry per selected file under the upload field's name in selection
order, followed by one entry per declared form field whose stored value
is defined (empty string included), in declaration order, under its own
name with that value; a declared field with no stored value contributes
NO entry (the source guards each append with `value !== undefined`,
lines 184-190). -/
theorem multipartBodyAssembly (e : ApiEndpoint) (fu : FileUpload)
    (files : List String) (fd : String → Option String)
    (hm : e.method ≠ Method.GET)
    (hb : e.requestBodyType = some "multipart/form-data")
    (hfu : e.fileUpload = some fu) :
    buildBody e files fd =
      some (files.map (fun f => BodyPart.filePart fu.name f) ++
        e.formFields.filterMap
          (fun f => (fd f.name).map (fun v => BodyPart.fieldPart f.name v))) := by
  simp [buildBody, hm, hb, hfu]

/-- Counterexample for C7 as stated: on `extract` with the optional
`tags` field unset, the assembled body has no `tags` entry at all,
rather than a `tags` entry with the empty string. -/
theorem multipartBodyOmitsUnsetField :
    buildBody extractEndpoint ["doc.pdf"] okFormData =
      some [BodyPart.filePart "files" "doc.pdf", BodyPart.fieldPart "query" "q"]
    ∧ buildBody extractEndpoint ["doc.pdf"] okFormData ≠
      some [BodyPart.filePart "files" "doc.pdf", BodyPart.fieldPart "query" "q",
        BodyPart.fieldPart "tags" ""] := by
  exact ⟨by decide, by decide⟩

/-- Witness for C7 (amended) on `extract` with both fields defined (the
mount-time defaults): file entry first, then `query` and `tags` entries
in declaration order. -/
theorem multipartBodyAssemblyWitness :
    buildBody extractEndpoint ["a.pdf"] (initialFormData extractEndpoint) =
      some ((["a.pdf"].map (fun f => BodyPart.filePart "files" f)) ++
        extractEndpoint.formFields.filterMap
          (fun f => ((initialFormData extractEndpoint) f.name).map
            (fun v => BodyPart.fieldPart f.name v))) :=
  multipartBodyAssembly extractEndpoint _ ["a.pdf"] (initialFormData extractEndpoint)
    (by decide) rfl rfl

/-- Counterexample for C6 as stated: the supplied non-empty value `$&`
is a replacement pattern for JavaScript `String.prototype.replace`
(GetSubstitution re-inserts the matched text), so the built URL ends in
the placeholder text `\x7btrace_id\x7d` again - the placeholder is not
replaced by the supplied value. -/
theorem urlSubstitutionDollarCounterexample :
    buildApiUrl traceEndpoint dollarTraceParams =
      baseUrl ++ "/v1/trace_id/\x7btrace_id\x7d"
    ∧ buildApiUrl traceEndpoint dollarTraceParams ≠
      baseUrl ++ "/v1/trace_id/" ++ "$&" := by
  exact ⟨by decide, by decide⟩

/-- C6 (amended): for every catalog endpoint, the built URL is the fixed
base host concatenated with `endpoint.path` in which a `\x7bname\x7d`
placeholder whose path parameter has a supplied non-empty value is
replaced by the ECMAScript GetSubstitution expansion of that value -
which is the value itself whenever the value contains no `$`
(`String.prototype.replace` treats `$$`, `$&`, `` $` ``, `$'` in the
replacement specially) - and a placeholder with no supplied value
(absent or empty string, both falsy in the source's truthiness test) is
left verbatim (`buildApiUrl`, lines 106-117).  The only parametrized
catalog path is `/v1/trace_id/\x7btrace_id\x7d`; the other three paths
have no placeholder and pass through unchanged. -/
theorem urlSubstitution (pp : String → Option String) :
    buildApiUrl classifyEndpoint pp = baseUrl ++ "/v1/classify"
    ∧ buildApiUrl extractAsyncEndpoint pp = baseUrl ++ "/v1/extract/async"
    ∧ buildApiUrl extractEndpoint pp = baseUrl ++ "/v1/extract"
    ∧ (∀ v, pp "trace_id" = some v → v ≠ "" →
        buildApiUrl traceEndpoint pp = baseUrl ++ "/v1/trace_id/" ++
          String.mk (getSubstitution v.data (String.data "\x7btrace_id\x7d")
            (String.data "https://kong-uat-proxy.hachiai.com/quest/v1/trace_id/") []))
    ∧ (∀ v, pp "trace_id" = some v → v ≠ "" → Char.ofNat 36 ∉ v.data →
        buildApiUrl traceEndpoint pp = baseUrl ++ "/v1/trace_id/" ++ v)
    ∧ (pp "trace_id" = none →
        buildApiUrl traceEndpoint pp = baseUrl ++ "/v1/trace_id/\x7btrace_id\x7d")
    ∧ (pp "trace_id" = some "" →
        buildApiUrl traceEndpoint pp = baseUrl ++ "/v1/trace_id/\x7btrace_id\x7d") := by
  have heq : baseUrl ++ "/v1/trace_id/\x7btrace_id\x7d" =
      "https://kong-uat-proxy.hachiai.com/quest/v1/trace_id/" ++ "\x7btrace_id\x7d" := by
    decide
  have hpat : ("\x7b" ++ "trace_id" ++ "\x7d" : String) = "\x7btrace_id\x7d" := by decide
  have hbase : baseUrl ++ "/v1/trace_id/" =
      "https://kong-uat-proxy.hachiai.com/quest/v1/trace_id/" := by decide
  refine ⟨rfl, rfl, rfl, ?_, ?_, ?_, ?_⟩
  · intro v hv hne
    have htr : truthyOpt (pp "trace_id") = true := by
      rw [hv]; simp [truthyOpt, hne]
    simp only [buildApiUrl, traceEndpoint, List.foldl_cons, List.foldl_nil]
    rw [if_pos ⟨by trivial, htr⟩, hv]
    simp only [Option.getD_some]
    rw [hpat, heq,
      jsReplaceFirst_concat _ _ v (Char.ofNat 123) (String.data "trace_id\x7d")
        (by decide) (by decide),
      hbase]
  · intro v hv hne hd
    have htr : truthyOpt (pp "trace_id") = true := by
      rw [hv]; simp [truthyOpt, hne]
    simp only [buildApiUrl, traceEndpoint, List.foldl_cons, List.foldl_nil]
    rw [if_pos ⟨by trivial, htr⟩, hv]
    simp only [Option.getD_some]
    rw [hpat, heq,
      jsReplaceFirst_concat_no_dollar _ _ v (Char.ofNat 123) (String.data "trace_id\x7d")
        (by decide) (by decide) hd,
      hbase]
  · intro h
    simp only [buildApiUrl, traceEndpoint, List.foldl_cons, List.foldl_nil]
    rw [if_neg (by simp [truthyOpt, h])]
  · intro h
    simp only [buildApiUrl, traceEndpoint, List.foldl_cons, List.foldl_nil]
    rw [if_neg (by simp [truthyOpt, h])]

/-- Witness for C6 (amended): the claim's own example - the value
`abc123` contains no `$`, so the path segment is exactly
`/v1/trace_id/abc123` - and a parameterless endpoint under the same
map. -/
theorem urlSubstitutionWitness :
    buildApiUrl traceEndpoint okTraceParams = baseUrl ++ "/v1/trace_id/" ++ "abc123"
    ∧ buildApiUrl classifyEndpoint okTraceParams = baseUrl ++ "/v1/classify" := by
  have h := urlSubstitution okTraceParams
  exact ⟨h.2.2.2.2.1 "abc123" rfl (by decide) (by decide), h.1⟩

end TestflowVista
